import Mathlib

/-!
Shallow embedding of `crates/rethnet_evm/src/debug_trace.rs` (the EIP-3155
tracer behind `debug_traceTransaction`) and proofs about it.

Modelling conventions:
* machine integers (`u8`, `u64`, `usize`, `U256`, `B160`, `B256`) are `Nat`;
  none of the traced operations overflow in the fragments embedded here;
* `Bytes` is `List Nat` (a byte list);
* Rust `HashMap`s are association lists (`List (k × v)`) with
  `lookupAssoc`/`insertAssoc`; only lookup/insert behaviour matters;
* the VM (revm) is an external collaborator: its gas inspector callbacks,
  opcode mnemonic table and execution functions are parameters of the
  embedded functions.
-/

/-- Lowercase-hex-digit test for a character, i.e. membership in
`[0-9a-f]`. -/
def isLowerHexDigit (c : Char) : Bool :=
  (('0' ≤ c) && (c ≤ '9')) || (('a' ≤ c) && (c ≤ 'f'))

/-- The lowercase hex digit character for a value `0 ≤ d < 16`, as produced
by Rust's lower-hex formatter. -/
def hexDigitChar (d : Nat) : Char :=
  if d < 10 then Char.ofNat (48 + d) else Char.ofNat (87 + d)

/-- Fueled big-endian base-16 digit extraction; the fuel argument makes the
recursion structural so that the kernel can evaluate it. -/
def hexCharsCore : Nat → Nat → List Char
  | 0, _ => []
  | _ + 1, 0 => []
  | fuel + 1, n + 1 =>
    hexCharsCore fuel ((n + 1) / 16) ++ [hexDigitChar ((n + 1) % 16)]

/-- The digits of Rust's minimal-width lowercase hex formatter `\x7b:x\x7d`:
no leading zeros, and the single digit `0` for zero. -/
def hexChars (n : Nat) : List Char :=
  if n = 0 then ['0'] else hexCharsCore (n + 1) n

/-- Embeds `to_hex_word` (debug_trace.rs): 66-character zero-padded
lowercase hex of a 256-bit word, zero special-cased to explicit padding. -/
def to_hex_word (word : Nat) : String :=
  if word = 0 then String.mk ('0' :: 'x' :: List.replicate 64 '0')
  else String.mk ('0' :: 'x' ::
    (List.replicate (64 - (hexChars word).length) '0' ++ hexChars word))

/-- Recognizer for the shape `^0x[0-9a-f]\x7b64\x7d$`: a 66-character string
made of the `0x` prefix and 64 lowercase hex digits. -/
def isHexWord66 (s : String) : Bool :=
  decide (s.length = 66) && decide (s.data.take 2 = ['0', 'x']) &&
    (s.data.drop 2).all isLowerHexDigit

/-- Embeds `hex::encode` applied to one memory chunk: two lowercase hex
digits per byte, leading zeros kept. -/
def hexEncode (chunk : List Nat) : String :=
  String.mk (chunk.flatMap (fun b => [hexDigitChar (b / 16), hexDigitChar (b % 16)]))

/-- Fueled version of Rust's `chunks(32)` on a byte list. -/
def chunks32Core : Nat → List Nat → List (List Nat)
  | 0, _ => []
  | _ + 1, [] => []
  | fuel + 1, b :: bs =>
    (b :: bs).take 32 :: chunks32Core fuel ((b :: bs).drop 32)

/-- Rust's `chunks(32)`: split a byte list into chunks of 32, the last one
possibly shorter. -/
def chunks32 (l : List Nat) : List (List Nat) :=
  chunks32Core (l.length + 1) l

/-- Association-list lookup, standing in for `HashMap::get`. -/
def lookupAssoc {K V : Type} [DecidableEq K] : List (K × V) → K → Option V
  | [], _ => none
  | (k, v) :: rest, key => if k = key then some v else lookupAssoc rest key

/-- Association-list insert-or-replace, standing in for `HashMap::insert`. -/
def insertAssoc {K V : Type} [DecidableEq K] : List (K × V) → K → V → List (K × V)
  | [], key, value => [(key, value)]
  | (k, v) :: rest, key, value =>
    if k = key then (key, value) :: rest else (k, v) :: insertAssoc rest key value

/-! ## External collaborator model (revm) -/

/-- revm's `SpecId` hardfork enumeration (external collaborator). The
constructor order mirrors the Rust discriminant order used by `PartialOrd`. -/
inductive SpecId where
  | FRONTIER
  | FRONTIER_THAWING
  | HOMESTEAD
  | DAO_FORK
  | TANGERINE
  | SPURIOUS_DRAGON
  | BYZANTIUM
  | CONSTANTINOPLE
  | PETERSBURG
  | ISTANBUL
  | MUIR_GLACIER
  | BERLIN
  | LONDON
  | ARROW_GLACIER
  | GRAY_GLACIER
  | MERGE
  | SHANGHAI
  | CANCUN
  | LATEST
  deriving DecidableEq

/-- Discriminant of a `SpecId`, as compared by Rust's derived `PartialOrd`
(`LATEST = u8::MAX` in revm). -/
def SpecId.toNat : SpecId → Nat
  | .FRONTIER => 0
  | .FRONTIER_THAWING => 1
  | .HOMESTEAD => 2
  | .DAO_FORK => 3
  | .TANGERINE => 4
  | .SPURIOUS_DRAGON => 5
  | .BYZANTIUM => 6
  | .CONSTANTINOPLE => 7
  | .PETERSBURG => 8
  | .ISTANBUL => 9
  | .MUIR_GLACIER => 10
  | .BERLIN => 11
  | .LONDON => 12
  | .ARROW_GLACIER => 13
  | .GRAY_GLACIER => 14
  | .MERGE => 15
  | .SHANGHAI => 16
  | .CANCUN => 17
  | .LATEST => 255

/-- revm opcode byte `SLOAD`. -/
def SLOAD : Nat := 0x54

/-- revm opcode byte `SSTORE`. -/
def SSTORE : Nat := 0x55

/-- revm opcode byte `STATICCALL`. -/
def STATICCALL : Nat := 0xfa

/-- revm's `InstructionResult` (external); only the constructors relevant to
the embedded callbacks are distinguished, the rest are carried by a code. -/
inductive InstructionResult where
  | Continue
  | Stop
  | Return
  | Revert
  | otherCode (code : Nat)
  deriving DecidableEq

/-- A storage slot of revm's journaled state; only `present_value` is read
by the tracer. -/
structure StorageSlot where
  present_value : Nat
  deriving DecidableEq

/-- An account of revm's journaled state; only its storage map is read by
the tracer. -/
structure Account where
  storage : List (Nat × StorageSlot)
  deriving DecidableEq

/-- revm's `JournalEntry` (external); the tracer pattern-matches only the
`StorageChange` variant, other variants are collapsed into `other`. -/
inductive JournalEntry where
  | storageChange (address : Nat) (key : Nat) (had_value : Option Nat)
  | other (tag : Nat)
  deriving DecidableEq

/-- The slice of revm's `JournaledState` read by the tracer: call depth,
the per-frame journal, and the account state. -/
structure JournaledState where
  depth : Nat
  journal : List (List JournalEntry)
  state : List (Nat × Account)
  deriving DecidableEq

/-- Embeds `journaled_state.journal.last().and_then(|v| v.last())`. -/
def JournaledState.lastJournalEntry (js : JournaledState) : Option JournalEntry :=
  js.journal.getLast?.bind List.getLast?

/-- Embeds `journaled_state.state[address].storage[key].present_value()`.
Rust's indexing panics when the entry is absent; the journal's storage-change
entry guarantees presence there, so the default 0 is never observable on the
paths the code takes. -/
def JournaledState.presentValue (js : JournaledState) (address key : Nat) : Nat :=
  match lookupAssoc js.state address with
  | none => 0
  | some acct =>
    match lookupAssoc acct.storage key with
    | none => 0
    | some slot => slot.present_value

/-- The observable state of revm's `GasInspector` (external collaborator):
remaining gas and the last recorded gas cost. Its callbacks are passed to
the tracer functions as opaque state-update parameters. -/
structure GasInspector where
  gas_remaining : Nat
  last_gas_cost : Nat
  deriving DecidableEq

/-- The slice of revm's `Interpreter` read by the tracer's `step`. -/
structure Interpreter where
  contract_address : Nat
  stack : List Nat
  memory : List Nat
  current_opcode : Nat
  program_counter : Nat
  deriving DecidableEq

/-! ## Tracer data model (debug_trace.rs) -/

/-- Embeds `DebugTraceConfig`. -/
structure DebugTraceConfig where
  disable_storage : Bool
  disable_memory : Bool
  disable_stack : Bool
  deriving DecidableEq

/-- Embeds `DebugTraceLogItem`, one EIP-3155 step record. -/
structure DebugTraceLogItem where
  pc : Nat
  op : Nat
  gas : String
  gas_cost : String
  stack : Option (List String)
  depth : Nat
  mem_size : Nat
  op_name : String
  error : Option String
  memory : Option (List String)
  storage : Option (List (String × String))
  deriving DecidableEq

/-- Embeds the `TracerEip3155` struct: the tracer's mutable state. -/
structure TracerEip3155 where
  config : DebugTraceConfig
  logs : List DebugTraceLogItem
  gas_inspector : GasInspector
  contract_address : Nat
  gas_remaining : Nat
  memory : List Nat
  mem_size : Nat
  opcode : Nat
  pc : Nat
  skip : Bool
  stack : List Nat
  storage : List (Nat × List (String × String))
  deriving DecidableEq

/-- Embeds `TracerEip3155::new`. -/
def TracerEip3155.new (config : DebugTraceConfig) : TracerEip3155 where
  config := config
  logs := []
  gas_inspector := { gas_remaining := 0, last_gas_cost := 0 }
  contract_address := 0
  gas_remaining := 0
  memory := []
  mem_size := 0
  opcode := 0
  pc := 0
  skip := false
  stack := []
  storage := []

/-- The storage-capture block of `record_log`: when storage capture is
enabled and the opcode is SLOAD/SSTORE with a storage-change journal entry
last, mirror the slot's present value into `self.storage`; returns the
updated tracer state and the record's `storage` field. -/
def TracerEip3155.storageCapture (self : TracerEip3155) (js : JournaledState) :
    TracerEip3155 × Option (List (String × String)) :=
  if self.config.disable_storage then (self, none)
  else
    let self :=
      if self.opcode = SLOAD ∨ self.opcode = SSTORE then
        match js.lastJournalEntry with
        | some (JournalEntry.storageChange address key _) =>
          let value := js.presentValue address key
          let contract_storage := (lookupAssoc self.storage self.contract_address).getD []
          let contract_storage := insertAssoc contract_storage (to_hex_word key) (to_hex_word value)
          { self with storage := insertAssoc self.storage self.contract_address contract_storage }
        | _ => self
      else self
    (self, some ((lookupAssoc self.storage self.contract_address).getD []))

/-- Embeds `TracerEip3155::record_log`. The opcode mnemonic table
`OPCODE_JUMPMAP` is an external collaborator, passed as `jumpmap`. -/
def TracerEip3155.record_log (jumpmap : Nat → Option String)
    (self : TracerEip3155) (js : JournaledState) : TracerEip3155 :=
  let depth := js.depth
  let stackField := if self.config.disable_stack then none
    else some (self.stack.map to_hex_word)
  let memoryField := if self.config.disable_memory then none
    else some ((chunks32 self.memory).map hexEncode)
  let captured := TracerEip3155.storageCapture self js
  let self := captured.1
  let storageField := captured.2
  let opNameError : String × Option String :=
    match jumpmap self.opcode with
    | some name => (name, none)
    | none =>
      let fallback := "opcode 0x$" ++ String.mk (hexChars self.opcode) ++ " not defined"
      (fallback, some fallback)
  let gasCostVal := if self.opcode = STATICCALL then 0 else self.gas_inspector.last_gas_cost
  let log_item : DebugTraceLogItem :=
    { pc := self.pc
      op := self.opcode
      gas := String.mk ('0' :: 'x' :: hexChars self.gas_remaining)
      gas_cost := String.mk ('0' :: 'x' :: hexChars gasCostVal)
      stack := stackField
      depth := depth
      mem_size := self.mem_size
      op_name := opNameError.1
      error := opNameError.2
      memory := memoryField
      storage := storageField }
  { self with logs := self.logs ++ [log_item] }

/-- Embeds `Inspector::step` for `TracerEip3155`: pre-opcode snapshot. The
gas inspector's own `step` is the external parameter `giStep`. The Rust
callback also returns `InstructionResult::Continue`, unconditionally. -/
def TracerEip3155.step (giStep : GasInspector → GasInspector)
    (self : TracerEip3155) (interp : Interpreter) : TracerEip3155 :=
  let self := { self with contract_address := interp.contract_address }
  let gi := giStep self.gas_inspector
  let self := { self with gas_inspector := gi, gas_remaining := gi.gas_remaining }
  let self := if self.config.disable_stack then self
    else { self with stack := interp.stack }
  let self := if self.config.disable_memory then self
    else { self with memory := interp.memory }
  { self with
    mem_size := interp.memory.length
    opcode := interp.current_opcode
    pc := interp.program_counter }

/-- Embeds `Inspector::step_end` for `TracerEip3155`. The gas inspector's
own `step_end` is the external parameter `giStepEnd`. The Rust callback also
returns `InstructionResult::Continue`, unconditionally. -/
def TracerEip3155.step_end (jumpmap : Nat → Option String)
    (giStepEnd : GasInspector → GasInspector)
    (self : TracerEip3155) (js : JournaledState) : TracerEip3155 :=
  let self := { self with gas_inspector := giStepEnd self.gas_inspector }
  if self.skip then { self with skip := false }
  else TracerEip3155.record_log jumpmap self js

/-- Embeds `Inspector::call` for `TracerEip3155`: records a log and returns
`(Continue, Gas::new(0), Bytes::new())`. -/
def TracerEip3155.call (jumpmap : Nat → Option String)
    (self : TracerEip3155) (js : JournaledState) :
    TracerEip3155 × (InstructionResult × Nat × List Nat) :=
  (TracerEip3155.record_log jumpmap self js, (InstructionResult.Continue, 0, []))

/-- Embeds `Inspector::call_end` for `TracerEip3155`. The gas inspector's
own `call_end` is the external parameter `giCallEnd`. -/
def TracerEip3155.call_end (giCallEnd : GasInspector → GasInspector)
    (self : TracerEip3155) (remaining_gas : Nat) (ret : InstructionResult)
    (out : List Nat) :
    TracerEip3155 × (InstructionResult × Nat × List Nat) :=
  let self := { self with gas_inspector := giCallEnd self.gas_inspector }
  ({ self with skip := true }, (ret, remaining_gas, out))

/-- Embeds `Inspector::create` for `TracerEip3155`: records a log and
returns `(Continue, None, Gas::new(0), Bytes::default())`. -/
def TracerEip3155.create (jumpmap : Nat → Option String)
    (self : TracerEip3155) (js : JournaledState) :
    TracerEip3155 × (InstructionResult × Option Nat × Nat × List Nat) :=
  (TracerEip3155.record_log jumpmap self js,
    (InstructionResult.Continue, none, 0, []))

/-- Embeds `Inspector::create_end` for `TracerEip3155`. The gas inspector's
own `create_end` is the external parameter `giCreateEnd`. -/
def TracerEip3155.create_end (giCreateEnd : GasInspector → GasInspector)
    (self : TracerEip3155) (ret : InstructionResult) (address : Option Nat)
    (remaining_gas : Nat) (out : List Nat) :
    TracerEip3155 × (InstructionResult × Option Nat × Nat × List Nat) :=
  let self := { self with gas_inspector := giCreateEnd self.gas_inspector }
  ({ self with skip := true }, (ret, address, remaining_gas, out))

/-! ## Replay driver model (debug_trace.rs, `debug_trace_transaction`) -/

/-- revm's `Output` (external): the return payload of a successful
execution; `into_data` extracts the bytes. -/
inductive Output where
  | call (bytes : List Nat)
  | create (bytes : List Nat) (address : Option Nat)
  deriving DecidableEq

/-- Embeds `Output::into_data`. -/
def Output.into_data : Output → List Nat
  | .call bytes => bytes
  | .create bytes _ => bytes

/-- revm's `ExecutionResult` (external), restricted to the fields the driver
reads: `Success \x7b gas_used, output, .. \x7d`, `Revert \x7b gas_used,
output \x7d`, `Halt \x7b reason, gas_used \x7d` (the halt reason is never
read). -/
inductive ExecutionResult where
  | Success (gas_used : Nat) (output : Output)
  | Revert (gas_used : Nat) (output : List Nat)
  | Halt (reason : Nat) (gas_used : Nat)
  deriving DecidableEq

/-- Discriminant test: is the result the `Success` variant? -/
def ExecutionResult.isSuccess : ExecutionResult → Bool
  | .Success _ _ => true
  | _ => false

/-- The `gas_used` field common to all three `ExecutionResult` variants. -/
def ExecutionResult.gasUsed : ExecutionResult → Nat
  | .Success gas_used _ => gas_used
  | .Revert gas_used _ => gas_used
  | .Halt _ gas_used => gas_used

/-- Embeds `DebugTraceResult`. -/
structure DebugTraceResult where
  pass : Bool
  gas_used : Nat
  output : Option (List Nat)
  logs : List DebugTraceLogItem
  deriving DecidableEq

/-- The repository's `TransactionError` (declared outside this file); the
driver distinguishes only `MissingPrevrandao`, every other variant is
carried opaquely by a code. -/
inductive TransactionError where
  | missingPrevrandao
  | otherError (code : Nat)
  deriving DecidableEq

/-- Embeds `DebugTraceError`. `TransactionError::from`/`.into()` conversions
are the `transactionError` injection. -/
inductive DebugTraceError where
  | invalidSpecId (spec_id : SpecId)
  | invalidTransactionHash (transaction_hash : Nat) (block_number : Nat)
  | signatureError (code : Nat)
  | transactionError (e : TransactionError)
  deriving DecidableEq

/-- The slice of revm's `BlockEnv` read directly by the driver: the block
number and the optional prevrandao. The remaining fields are only forwarded
to the external `build_evm`. -/
structure BlockEnv where
  number : Nat
  prevrandao : Option Nat
  deriving DecidableEq

/-- Embeds the `match execution_result` block of `debug_trace_transaction`
(lines 60-81): builds the `DebugTraceResult` from the VM result and the
tracer's accumulated logs. -/
def mkDebugResult (execution_result : ExecutionResult)
    (logs : List DebugTraceLogItem) : DebugTraceResult :=
  match execution_result with
  | .Success gas_used output =>
    { pass := true, gas_used := gas_used, output := some output.into_data, logs := logs }
  | .Revert gas_used output =>
    { pass := false, gas_used := gas_used, output := some output, logs := logs }
  | .Halt _ gas_used =>
    { pass := false, gas_used := gas_used, output := none, logs := logs }

/-- The effect of the non-target arm of the driver's loop, iterated: execute
each transaction non-inspecting (`transact_ref`) and commit its state delta,
discarding the execution result (so reverted or halted transactions commit
too); stops at the first VM-level error. -/
def replayCommit {St Ch Tx : Type}
    (transact : St → Tx → Except TransactionError (ExecutionResult × Ch))
    (commit : St → Ch → St) : St → List Tx → Except TransactionError St
  | state, [] => .ok state
  | state, tx :: rest =>
    match transact state tx with
    | .error e => .error e
    | .ok (_, changes) => replayCommit transact commit (commit state changes) rest

/-- Embeds the `for transaction in transactions` loop of
`debug_trace_transaction` (lines 44-101). The external VM is abstracted by
`transact` (build_evm + `transact_ref`, returning the execution result and
the state delta) and `inspect` (build_evm + `inspect_ref` with a fresh
`TracerEip3155`, returning the execution result and the tracer's logs). -/
def debugTraceLoop {St Ch Tx : Type} (hash : Tx → Nat)
    (transact : St → Tx → Except TransactionError (ExecutionResult × Ch))
    (inspect : St → Tx → Except TransactionError (ExecutionResult × List DebugTraceLogItem))
    (commit : St → Ch → St) (transaction_hash : Nat) (block_number : Nat) :
    St → List Tx → Except DebugTraceError DebugTraceResult
  | _, [] => .error (.invalidTransactionHash transaction_hash block_number)
  | state, transaction :: rest =>
    if hash transaction = transaction_hash then
      match inspect state transaction with
      | .error e => .error (.transactionError e)
      | .ok (execution_result, logs) => .ok (mkDebugResult execution_result logs)
    else
      match transact state transaction with
      | .error e => .error (.transactionError e)
      | .ok (_, changes) =>
        debugTraceLoop hash transact inspect commit transaction_hash block_number
          (commit state changes) rest

/-- Embeds `debug_trace_transaction` (lines 19-102): eager spec-id and
prevrandao validation, then the replay loop. -/
def debug_trace_transaction {St Ch Tx : Type} (spec_id : SpecId)
    (block_env : BlockEnv) (hash : Tx → Nat)
    (transact : St → Tx → Except TransactionError (ExecutionResult × Ch))
    (inspect : St → Tx → Except TransactionError (ExecutionResult × List DebugTraceLogItem))
    (commit : St → Ch → St) (state : St) (transactions : List Tx)
    (transaction_hash : Nat) : Except DebugTraceError DebugTraceResult :=
  if spec_id.toNat < SpecId.SPURIOUS_DRAGON.toNat then
    .error (.invalidSpecId spec_id)
  else if SpecId.MERGE.toNat < spec_id.toNat ∧ block_env.prevrandao = none then
    .error (.transactionError .missingPrevrandao)
  else
    debugTraceLoop hash transact inspect commit transaction_hash block_env.number
      state transactions

/-! ## Helper lemmas -/

theorem lookupAssoc_insertAssoc_self {K V : Type} [DecidableEq K]
    (l : List (K × V)) (key : K) (value : V) :
    lookupAssoc (insertAssoc l key value) key = some value := by
  induction l with
  | nil => simp [insertAssoc, lookupAssoc]
  | cons hd tl ih =>
    obtain ⟨k, v⟩ := hd
    by_cases hk : k = key
    · simp [insertAssoc, lookupAssoc, hk]
    · simp [insertAssoc, lookupAssoc, hk, ih]

theorem lookupAssoc_insertAssoc_ne {K V : Type} [DecidableEq K]
    (l : List (K × V)) (key key' : K) (value : V) (hne : key' ≠ key) :
    lookupAssoc (insertAssoc l key value) key' = lookupAssoc l key' := by
  have hne' : key ≠ key' := Ne.symm hne
  induction l with
  | nil => simp [insertAssoc, lookupAssoc, hne']
  | cons hd tl ih =>
    obtain ⟨k, v⟩ := hd
    by_cases hk : k = key
    · subst hk
      simp [insertAssoc, lookupAssoc, hne']
    · simp [insertAssoc, lookupAssoc, hk, ih]

theorem hexDigitChar_isLowerHexDigit (d : Nat) (h : d < 16) :
    isLowerHexDigit (hexDigitChar d) = true := by
  interval_cases d <;> decide

theorem hexDigitChar_ne_zero_char (d : Nat) (h0 : d ≠ 0) (h : d < 16) :
    hexDigitChar d ≠ '0' := by
  interval_cases d <;> simp_all <;> decide

theorem hexCharsCore_zero (fuel : Nat) : hexCharsCore fuel 0 = [] := by
  cases fuel <;> rfl

theorem hexCharsCore_all_hex :
    ∀ fuel n c, c ∈ hexCharsCore fuel n → isLowerHexDigit c = true := by
  intro fuel
  induction fuel with
  | zero => intro n c hc; simp [hexCharsCore] at hc
  | succ fuel ih =>
    intro n c hc
    cases n with
    | zero => simp [hexCharsCore] at hc
    | succ m =>
      simp only [hexCharsCore, List.mem_append, List.mem_singleton] at hc
      rcases hc with hc | hc
      · exact ih _ _ hc
      · subst hc
        exact hexDigitChar_isLowerHexDigit _ (Nat.mod_lt _ (by norm_num))

theorem hexCharsCore_length_le :
    ∀ fuel n k, n < 16 ^ k → (hexCharsCore fuel n).length ≤ k := by
  intro fuel
  induction fuel with
  | zero => intro n k _; simp [hexCharsCore]
  | succ fuel ih =>
    intro n k hn
    cases n with
    | zero => simp [hexCharsCore]
    | succ m =>
      cases k with
      | zero => simp at hn
      | succ k =>
        have hdiv : (m + 1) / 16 < 16 ^ k := by
          rw [Nat.div_lt_iff_lt_mul (by norm_num)]
          calc m + 1 < 16 ^ (k + 1) := hn
            _ = 16 ^ k * 16 := by ring
        have := ih ((m + 1) / 16) k hdiv
        simp only [hexCharsCore, List.length_append, List.length_singleton]
        omega

theorem hexChars_ne_nil (n : Nat) : hexChars n ≠ [] := by
  unfold hexChars
  split
  · simp
  · rename_i hn
    cases n with
    | zero => exact absurd rfl hn
    | succ m => simp [hexCharsCore]

theorem hexChars_all_hex (n : Nat) :
    ∀ c ∈ hexChars n, isLowerHexDigit c = true := by
  intro c hc
  unfold hexChars at hc
  split at hc
  · simp at hc
    subst hc
    decide
  · exact hexCharsCore_all_hex _ _ _ hc

theorem hexChars_length_le (n k : Nat) (hn : n < 16 ^ k) (hk : 1 ≤ k) :
    (hexChars n).length ≤ k := by
  unfold hexChars
  split
  · simpa
  · exact hexCharsCore_length_le _ _ _ hn

theorem hexCharsCore_head_ne_zero :
    ∀ fuel n, n ≠ 0 → n < fuel →
      ∃ c l, hexCharsCore fuel n = c :: l ∧ c ≠ '0' ∧ isLowerHexDigit c = true := by
  intro fuel
  induction fuel with
  | zero => intro n h0 hf; omega
  | succ fuel ih =>
    intro n h0 hf
    cases n with
    | zero => exact absurd rfl h0
    | succ m =>
      by_cases hq : (m + 1) / 16 = 0
      · have hlt : m + 1 < 16 := by
          by_contra hge
          have : 1 ≤ (m + 1) / 16 := Nat.one_le_div_iff (by norm_num) |>.mpr (by omega)
          omega
        have hmod : (m + 1) % 16 = m + 1 := Nat.mod_eq_of_lt hlt
        refine ⟨hexDigitChar ((m + 1) % 16), [], ?_, ?_, ?_⟩
        · simp [hexCharsCore, hq, hexCharsCore_zero]
        · rw [hmod]; exact hexDigitChar_ne_zero_char _ (by omega) hlt
        · exact hexDigitChar_isLowerHexDigit _ (Nat.mod_lt _ (by norm_num))
      · have hq_lt : (m + 1) / 16 < fuel := by
          have h1 : (m + 1) / 16 < m + 1 := Nat.div_lt_self (by omega) (by norm_num)
          omega
        obtain ⟨c, l, heq, hc0, hchex⟩ := ih ((m + 1) / 16) hq hq_lt
        exact ⟨c, l ++ [hexDigitChar ((m + 1) % 16)], by simp [hexCharsCore, heq], hc0, hchex⟩

theorem hexChars_head_ne_zero (n : Nat) (h0 : n ≠ 0) :
    ∃ c l, hexChars n = c :: l ∧ c ≠ '0' ∧ isLowerHexDigit c = true := by
  unfold hexChars
  rw [if_neg h0]
  exact hexCharsCore_head_ne_zero _ _ h0 (by omega)

theorem debugTraceLoop_append {St Ch Tx : Type} (hash : Tx → Nat)
    (transact : St → Tx → Except TransactionError (ExecutionResult × Ch))
    (inspect : St → Tx → Except TransactionError (ExecutionResult × List DebugTraceLogItem))
    (commit : St → Ch → St) (transaction_hash block_number : Nat)
    (pre rest : List Tx) (state : St)
    (hpre : ∀ tx ∈ pre, hash tx ≠ transaction_hash) :
    debugTraceLoop hash transact inspect commit transaction_hash block_number
        state (pre ++ rest) =
      (match replayCommit transact commit state pre with
       | .error e => .error (.transactionError e)
       | .ok state2 =>
         debugTraceLoop hash transact inspect commit transaction_hash block_number
           state2 rest) := by
  induction pre generalizing state with
  | nil => simp [replayCommit]
  | cons tx tl ih =>
    have hne : hash tx ≠ transaction_hash := hpre tx (by simp)
    have htl : ∀ t ∈ tl, hash t ≠ transaction_hash := fun t ht => hpre t (by simp [ht])
    simp only [List.cons_append, debugTraceLoop, if_neg hne, replayCommit]
    cases htx : transact state tx with
    | error e => rfl
    | ok p =>
      obtain ⟨res, changes⟩ := p
      exact ih (commit state changes) htl

/-! ## Claim theorems -/

/-- C1 (amended). For every input whose active fork is strictly past The
Merge (`spec_id > MERGE`) and whose `block_env.prevrandao` is unset,
`debug_trace_transaction` fails with `MissingPrevrandao` before any
execution: the result is this error for every choice of the VM functions
`transact`, `inspect` and `commit`, of the state and of the transaction
list, so no VM is built and no transaction is replayed or committed. At a
fork exactly at The Merge the check does not fire. -/
theorem debug_trace_missing_prevrandao {St Ch Tx : Type} (spec_id : SpecId)
    (block_env : BlockEnv) (hash : Tx → Nat)
    (transact : St → Tx → Except TransactionError (ExecutionResult × Ch))
    (inspect : St → Tx → Except TransactionError (ExecutionResult × List DebugTraceLogItem))
    (commit : St → Ch → St) (state : St) (transactions : List Tx)
    (transaction_hash : Nat)
    (hmerge : SpecId.MERGE.toNat < spec_id.toNat)
    (hrandao : block_env.prevrandao = none) :
    debug_trace_transaction spec_id block_env hash transact inspect commit
        state transactions transaction_hash =
      .error (.transactionError .missingPrevrandao) := by
  have h15 : SpecId.MERGE.toNat = 15 := rfl
  have h5 : SpecId.SPURIOUS_DRAGON.toNat = 5 := rfl
  have hge : ¬ spec_id.toNat < SpecId.SPURIOUS_DRAGON.toNat := by
    rw [h15] at hmerge
    rw [h5]
    omega
  unfold debug_trace_transaction
  rw [if_neg hge, if_pos ⟨hmerge, hrandao⟩]

/-- Witness for C1's amended theorem at Shanghai (strictly past Merge) with
prevrandao unset and trivial VM collaborators. -/
theorem debug_trace_missing_prevrandao_witness :
    SpecId.MERGE.toNat < SpecId.SHANGHAI.toNat ∧
    (BlockEnv.mk 9 none).prevrandao = none ∧
    debug_trace_transaction SpecId.SHANGHAI (BlockEnv.mk 9 none)
        (fun _ : Unit => 0)
        (fun (_ : Unit) (_ : Unit) => Except.ok (ExecutionResult.Halt 0 0, ()))
        (fun (_ : Unit) (_ : Unit) => Except.ok (ExecutionResult.Halt 0 0, ([] : List DebugTraceLogItem)))
        (fun s _ => s) () [(), ()] 3 =
      .error (.transactionError .missingPrevrandao) :=
  ⟨by decide, rfl,
    debug_trace_missing_prevrandao SpecId.SHANGHAI (BlockEnv.mk 9 none) _ _ _ _ () [(), ()] 3
      (by decide) rfl⟩

/-- Counterexample to C1 as stated: at a fork exactly at The Merge
(`spec_id = MERGE`, which is "at or past The Merge") with prevrandao unset,
`debug_trace_transaction` does not fail with `MissingPrevrandao`; with an
empty transaction list it returns `InvalidTransactionHash` instead, because
the code guards with `spec_id > SpecId::MERGE`, a strict comparison. -/
theorem debug_trace_merge_prevrandao_counterexample :
    SpecId.MERGE.toNat ≤ SpecId.MERGE.toNat ∧
    (BlockEnv.mk 5 none).prevrandao = none ∧
    debug_trace_transaction SpecId.MERGE (BlockEnv.mk 5 none)
        (fun _ : Unit => 0)
        (fun (_ : Unit) (_ : Unit) => Except.ok (ExecutionResult.Halt 0 0, ()))
        (fun (_ : Unit) (_ : Unit) => Except.ok (ExecutionResult.Halt 0 0, ([] : List DebugTraceLogItem)))
        (fun s _ => s) () [] 7 =
      .error (.invalidTransactionHash 7 5) ∧
    (Except.error (DebugTraceError.invalidTransactionHash 7 5) :
        Except DebugTraceError DebugTraceResult) ≠
      .error (.transactionError .missingPrevrandao) := by
  refine ⟨Nat.le_refl _, rfl, rfl, ?_⟩
  intro h
  simp at h

/-- C2. The returned `DebugTraceResult` is determined by the VM execution
result's discriminant: `Success` yields `pass = true` and
`output = some (result bytes)`; `Revert` yields `pass = false` and
`output = some (revert bytes)`; `Halt` yields `pass = false` and
`output = none`; in every case `gas_used` comes from the VM result, `logs`
is the tracer's accumulated record list, and `pass` is true iff the result
is the success variant. -/
theorem mkDebugResult_spec :
    (∀ gas_used output logs,
      mkDebugResult (ExecutionResult.Success gas_used output) logs =
        { pass := true, gas_used := gas_used, output := some output.into_data,
          logs := logs }) ∧
    (∀ gas_used output logs,
      mkDebugResult (ExecutionResult.Revert gas_used output) logs =
        { pass := false, gas_used := gas_used, output := some output,
          logs := logs }) ∧
    (∀ reason gas_used logs,
      mkDebugResult (ExecutionResult.Halt reason gas_used) logs =
        { pass := false, gas_used := gas_used, output := none, logs := logs }) ∧
    (∀ execution_result logs,
      (mkDebugResult execution_result logs).pass = execution_result.isSuccess ∧
      (mkDebugResult execution_result logs).gas_used = execution_result.gasUsed ∧
      (mkDebugResult execution_result logs).logs = logs) := by
  refine ⟨fun _ _ _ => rfl, fun _ _ _ => rfl, fun _ _ _ => rfl, fun res logs => ?_⟩
  cases res <;>
    simp [mkDebugResult, ExecutionResult.isSuccess, ExecutionResult.gasUsed]

/-- C3. When the ordered transaction sequence contains the target hash
(`pre ++ t :: post` with the target hash first reached at `t`),
`debug_trace_transaction` executes each preceding transaction
non-inspecting and commits its state delta (`replayCommit` discards the
execution result, so reverted and halted transactions are committed too),
then traces the target from the committed state and returns immediately:
the result never depends on `post`, so no transaction after the target is
executed or committed. -/
theorem debug_trace_replays_then_traces {St Ch Tx : Type} (spec_id : SpecId)
    (block_env : BlockEnv) (hash : Tx → Nat)
    (transact : St → Tx → Except TransactionError (ExecutionResult × Ch))
    (inspect : St → Tx → Except TransactionError (ExecutionResult × List DebugTraceLogItem))
    (commit : St → Ch → St) (state : St) (pre : List Tx) (t : Tx)
    (post : List Tx) (transaction_hash : Nat)
    (hspec : ¬ spec_id.toNat < SpecId.SPURIOUS_DRAGON.toNat)
    (hpr : ¬ (SpecId.MERGE.toNat < spec_id.toNat ∧ block_env.prevrandao = none))
    (hpre : ∀ tx ∈ pre, hash tx ≠ transaction_hash)
    (ht : hash t = transaction_hash) :
    debug_trace_transaction spec_id block_env hash transact inspect commit
        state (pre ++ t :: post) transaction_hash =
      (match replayCommit transact commit state pre with
       | .error e => .error (.transactionError e)
       | .ok state2 =>
         match inspect state2 t with
         | .error e => .error (.transactionError e)
         | .ok (execution_result, logs) => .ok (mkDebugResult execution_result logs)) ∧
    debug_trace_transaction spec_id block_env hash transact inspect commit
        state (pre ++ t :: post) transaction_hash =
      debug_trace_transaction spec_id block_env hash transact inspect commit
        state (pre ++ [t]) transaction_hash := by
  have key : ∀ rest : List Tx,
      debug_trace_transaction spec_id block_env hash transact inspect commit
          state (pre ++ t :: rest) transaction_hash =
        (match replayCommit transact commit state pre with
         | .error e => .error (.transactionError e)
         | .ok state2 =>
           match inspect state2 t with
           | .error e => .error (.transactionError e)
           | .ok (execution_result, logs) => .ok (mkDebugResult execution_result logs)) := by
    intro rest
    unfold debug_trace_transaction
    rw [if_neg hspec, if_neg hpr]
    rw [debugTraceLoop_append hash transact inspect commit transaction_hash
      block_env.number pre (t :: rest) state hpre]
    cases hrc : replayCommit transact commit state pre with
    | error e => rfl
    | ok state2 =>
      simp only [debugTraceLoop, if_pos ht]
  exact ⟨key post, (key post).trans (key []).symm⟩

/-- Witness for C3 at a concrete three-transaction block where the middle
transaction carries the target hash. -/
theorem debug_trace_replays_then_traces_witness :
    debug_trace_transaction SpecId.LONDON (BlockEnv.mk 4 none)
        (fun tx : Nat => tx)
        (fun (_ : Unit) (_ : Nat) => Except.ok (ExecutionResult.Halt 0 0, ()))
        (fun (_ : Unit) (_ : Nat) =>
          Except.ok (ExecutionResult.Success 21000 (Output.call [5]),
            ([] : List DebugTraceLogItem)))
        (fun s _ => s) () ([1] ++ 2 :: [3]) 2 =
      (match replayCommit (fun (_ : Unit) (_ : Nat) =>
          Except.ok (ExecutionResult.Halt 0 0, ())) (fun s _ => s) () [1] with
       | .error e => .error (.transactionError e)
       | .ok state2 =>
         match (fun (_ : Unit) (_ : Nat) =>
             Except.ok (ExecutionResult.Success 21000 (Output.call [5]),
               ([] : List DebugTraceLogItem))) state2 2 with
         | .error e => .error (.transactionError e)
         | .ok (execution_result, logs) => .ok (mkDebugResult execution_result logs)) ∧
    debug_trace_transaction SpecId.LONDON (BlockEnv.mk 4 none)
        (fun tx : Nat => tx)
        (fun (_ : Unit) (_ : Nat) => Except.ok (ExecutionResult.Halt 0 0, ()))
        (fun (_ : Unit) (_ : Nat) =>
          Except.ok (ExecutionResult.Success 21000 (Output.call [5]),
            ([] : List DebugTraceLogItem)))
        (fun s _ => s) () ([1] ++ 2 :: [3]) 2 =
      debug_trace_transaction SpecId.LONDON (BlockEnv.mk 4 none)
        (fun tx : Nat => tx)
        (fun (_ : Unit) (_ : Nat) => Except.ok (ExecutionResult.Halt 0 0, ()))
        (fun (_ : Unit) (_ : Nat) =>
          Except.ok (ExecutionResult.Success 21000 (Output.call [5]),
            ([] : List DebugTraceLogItem)))
        (fun s _ => s) () ([1] ++ [2]) 2 :=
  debug_trace_replays_then_traces SpecId.LONDON (BlockEnv.mk 4 none) _ _ _ _ ()
    [1] 2 [3] 2 (by decide) (by decide) (by decide) rfl

/-- C8. When no supplied transaction carries the target hash and replaying
every supplied transaction succeeds (each is executed and its delta
committed), `debug_trace_transaction` fails with `InvalidTransactionHash`
carrying the target hash and the block number from `block_env`. -/
theorem debug_trace_hash_not_found {St Ch Tx : Type} (spec_id : SpecId)
    (block_env : BlockEnv) (hash : Tx → Nat)
    (transact : St → Tx → Except TransactionError (ExecutionResult × Ch))
    (inspect : St → Tx → Except TransactionError (ExecutionResult × List DebugTraceLogItem))
    (commit : St → Ch → St) (state : St) (transactions : List Tx)
    (transaction_hash : Nat) (state2 : St)
    (hspec : ¬ spec_id.toNat < SpecId.SPURIOUS_DRAGON.toNat)
    (hpr : ¬ (SpecId.MERGE.toNat < spec_id.toNat ∧ block_env.prevrandao = none))
    (hall : ∀ tx ∈ transactions, hash tx ≠ transaction_hash)
    (hrep : replayCommit transact commit state transactions = .ok state2) :
    debug_trace_transaction spec_id block_env hash transact inspect commit
        state transactions transaction_hash =
      .error (.invalidTransactionHash transaction_hash block_env.number) := by
  unfold debug_trace_transaction
  rw [if_neg hspec, if_neg hpr]
  have happ := debugTraceLoop_append hash transact inspect commit
    transaction_hash block_env.number transactions [] state hall
  rw [List.append_nil] at happ
  rw [happ, hrep]
  rfl

/-- Witness for C8 on a two-transaction block whose hashes both differ from
the target. -/
theorem debug_trace_hash_not_found_witness :
    debug_trace_transaction SpecId.LONDON (BlockEnv.mk 4 none)
        (fun tx : Nat => tx)
        (fun (_ : Unit) (_ : Nat) => Except.ok (ExecutionResult.Halt 0 0, ()))
        (fun (_ : Unit) (_ : Nat) =>
          Except.ok (ExecutionResult.Halt 0 0, ([] : List DebugTraceLogItem)))
        (fun s _ => s) () [1, 2] 9 =
      .error (.invalidTransactionHash 9 4) :=
  debug_trace_hash_not_found SpecId.LONDON (BlockEnv.mk 4 none) _ _ _ _ ()
    [1, 2] 9 () (by decide) (by decide) (by decide) rfl

theorem storageCapture_fst (self : TracerEip3155) (js : JournaledState) :
    ∃ s, (TracerEip3155.storageCapture self js).1 = { self with storage := s } := by
  unfold TracerEip3155.storageCapture
  by_cases hd : self.config.disable_storage
  · exact ⟨self.storage, by simp [hd]⟩
  · simp only [hd, Bool.false_eq_true, if_false]
    by_cases hop : self.opcode = SLOAD ∨ self.opcode = SSTORE
    · simp only [hop, if_true]
      cases hj : js.lastJournalEntry with
      | none => exact ⟨self.storage, rfl⟩
      | some entry =>
        cases entry with
        | storageChange address key had_value => exact ⟨_, rfl⟩
        | other tag => exact ⟨self.storage, rfl⟩
    · simp only [hop, if_false]
      exact ⟨self.storage, rfl⟩

theorem record_log_shape (jumpmap : Nat → Option String) (self : TracerEip3155)
    (js : JournaledState) :
    ∃ item s, TracerEip3155.record_log jumpmap self js =
      { self with storage := s, logs := self.logs ++ [item] } := by
  obtain ⟨s, hs⟩ := storageCapture_fst self js
  simp only [TracerEip3155.record_log, hs]
  exact ⟨_, s, rfl⟩

/-- C4. Exactly one step record is appended per executed opcode, except
that the single `step_end` immediately following a `call_end` or
`create_end` appends no record: `call_end` and `create_end` set the `skip`
flag (without logging), the first `step_end` that observes `skip` true
clears it and returns without recording, a `step_end` that observes `skip`
false appends exactly one record and leaves `skip` false (so the flag is
strictly one-shot), and the pre-opcode `step` callback never appends. -/
theorem tracer_skip_one_shot :
    (∀ giCallEnd (self : TracerEip3155) remaining_gas ret out,
      (TracerEip3155.call_end giCallEnd self remaining_gas ret out).1.skip = true ∧
      (TracerEip3155.call_end giCallEnd self remaining_gas ret out).1.logs = self.logs) ∧
    (∀ giCreateEnd (self : TracerEip3155) ret address remaining_gas out,
      (TracerEip3155.create_end giCreateEnd self ret address remaining_gas out).1.skip = true ∧
      (TracerEip3155.create_end giCreateEnd self ret address remaining_gas out).1.logs = self.logs) ∧
    (∀ jumpmap giStepEnd (self : TracerEip3155) js, self.skip = true →
      TracerEip3155.step_end jumpmap giStepEnd self js =
        { self with gas_inspector := giStepEnd self.gas_inspector, skip := false }) ∧
    (∀ jumpmap giStepEnd (self : TracerEip3155) js, self.skip = false →
      (∃ item, (TracerEip3155.step_end jumpmap giStepEnd self js).logs =
        self.logs ++ [item]) ∧
      (TracerEip3155.step_end jumpmap giStepEnd self js).skip = false) ∧
    (∀ giStep (self : TracerEip3155) interp,
      (TracerEip3155.step giStep self interp).logs = self.logs) := by
  refine ⟨?_, ?_, ?_, ?_, ?_⟩
  · intro giCallEnd self remaining_gas ret out
    simp [TracerEip3155.call_end]
  · intro giCreateEnd self ret address remaining_gas out
    simp [TracerEip3155.create_end]
  · intro jumpmap giStepEnd self js h
    simp [TracerEip3155.step_end, h]
  · intro jumpmap giStepEnd self js h
    simp only [TracerEip3155.step_end]
    rw [if_neg (by simp [h])]
    obtain ⟨item, s, hshape⟩ := record_log_shape jumpmap
      { self with gas_inspector := giStepEnd self.gas_inspector } js
    rw [hshape]
    exact ⟨⟨item, rfl⟩, h⟩
  · intro giStep self interp
    simp only [TracerEip3155.step]
    split <;> split <;> rfl

/-- Witness for C4's conditional parts: a `step_end` with `skip` set logs
nothing and clears the flag; a `step_end` with `skip` clear appends exactly
one record and leaves the flag clear. -/
theorem tracer_skip_one_shot_witness :
    (TracerEip3155.step_end (fun _ => none) (fun g => g)
        { TracerEip3155.new (DebugTraceConfig.mk false false false) with skip := true }
        (JournaledState.mk 1 [] []) =
      { { TracerEip3155.new (DebugTraceConfig.mk false false false) with skip := true } with
          gas_inspector := (fun g => g)
            { TracerEip3155.new (DebugTraceConfig.mk false false false) with skip := true }.gas_inspector,
          skip := false }) ∧
    ((∃ item, (TracerEip3155.step_end (fun _ => none) (fun g => g)
        (TracerEip3155.new (DebugTraceConfig.mk false false false))
        (JournaledState.mk 1 [] [])).logs =
      (TracerEip3155.new (DebugTraceConfig.mk false false false)).logs ++ [item]) ∧
      (TracerEip3155.step_end (fun _ => none) (fun g => g)
        (TracerEip3155.new (DebugTraceConfig.mk false false false))
        (JournaledState.mk 1 [] [])).skip = false) :=
  ⟨tracer_skip_one_shot.2.2.1 _ _ _ _ rfl,
    tracer_skip_one_shot.2.2.2.1 _ _ _ _ rfl⟩

/-- C10. `call_end` returns exactly the `(ret, remaining_gas, out)` triple
it was given and `create_end` returns exactly the
`(ret, address, remaining_gas, out)` tuple it was given; besides the gas
accumulator and the `skip` flag, neither callback alters any tracer field,
so the tracer never alters the VM's sub-frame outcome. -/
theorem tracer_frame_passthrough :
    (∀ giCallEnd (self : TracerEip3155) remaining_gas ret out,
      (TracerEip3155.call_end giCallEnd self remaining_gas ret out).2 =
        (ret, remaining_gas, out) ∧
      (TracerEip3155.call_end giCallEnd self remaining_gas ret out).1 =
        { self with gas_inspector := giCallEnd self.gas_inspector, skip := true }) ∧
    (∀ giCreateEnd (self : TracerEip3155) ret address remaining_gas out,
      (TracerEip3155.create_end giCreateEnd self ret address remaining_gas out).2 =
        (ret, address, remaining_gas, out) ∧
      (TracerEip3155.create_end giCreateEnd self ret address remaining_gas out).1 =
        { self with gas_inspector := giCreateEnd self.gas_inspector, skip := true }) :=
  ⟨fun _ _ _ _ _ => ⟨rfl, rfl⟩, fun _ _ _ _ _ _ => ⟨rfl, rfl⟩⟩

theorem record_log_last_item (jumpmap : Nat → Option String)
    (self : TracerEip3155) (js : JournaledState) :
    ∃ item, (TracerEip3155.record_log jumpmap self js).logs = self.logs ++ [item] ∧
      item.pc = self.pc ∧
      item.op = self.opcode ∧
      item.gas = String.mk ('0' :: 'x' :: hexChars self.gas_remaining) ∧
      item.gas_cost = String.mk ('0' :: 'x' ::
        hexChars (if self.opcode = STATICCALL then 0
          else self.gas_inspector.last_gas_cost)) ∧
      item.stack = (if self.config.disable_stack then none
        else some (self.stack.map to_hex_word)) ∧
      item.depth = js.depth ∧
      item.mem_size = self.mem_size ∧
      item.op_name = (match jumpmap self.opcode with
        | some name => name
        | none => "opcode 0x$" ++ String.mk (hexChars self.opcode) ++ " not defined") ∧
      item.error = (match jumpmap self.opcode with
        | some _ => none
        | none =>
          some ("opcode 0x$" ++ String.mk (hexChars self.opcode) ++ " not defined")) ∧
      item.memory = (if self.config.disable_memory then none
        else some ((chunks32 self.memory).map hexEncode)) ∧
      item.storage = (TracerEip3155.storageCapture self js).2 := by
  obtain ⟨s, hs⟩ := storageCapture_fst self js
  simp only [TracerEip3155.record_log, hs]
  refine ⟨_, rfl, rfl, rfl, rfl, rfl, rfl, rfl, rfl, ?_, ?_, rfl, rfl⟩ <;>
    cases jumpmap self.opcode <;> rfl

theorem record_log_storage_eq (jumpmap : Nat → Option String)
    (self : TracerEip3155) (js : JournaledState) :
    (TracerEip3155.record_log jumpmap self js).storage =
      (TracerEip3155.storageCapture self js).1.storage := by
  obtain ⟨s, hs⟩ := storageCapture_fst self js
  simp only [TracerEip3155.record_log, hs]

/-- C6. Every step record appended by `record_log` carries
`gas_cost = "0x0"` when the observed opcode is `STATICCALL`, and otherwise
the gas accumulator's last recorded cost formatted as minimal-width
lowercase hex with a `0x` prefix (`hexChars` is nonempty, all lowercase hex
digits, and has no leading zero except for the single digit of zero). -/
theorem record_log_gas_cost (jumpmap : Nat → Option String)
    (self : TracerEip3155) (js : JournaledState) :
    ∃ item, (TracerEip3155.record_log jumpmap self js).logs = self.logs ++ [item] ∧
      item.gas_cost = (if self.opcode = STATICCALL then "0x0"
        else String.mk ('0' :: 'x' :: hexChars self.gas_inspector.last_gas_cost)) ∧
      (∀ n : Nat, hexChars n ≠ [] ∧
        (∀ c ∈ hexChars n, isLowerHexDigit c = true) ∧
        (n ≠ 0 → ∀ c l, hexChars n = c :: l → c ≠ '0')) := by
  obtain ⟨item, hlogs, _, _, _, hgc, _⟩ := record_log_last_item jumpmap self js
  refine ⟨item, hlogs, ?_, ?_⟩
  · rw [hgc]
    by_cases hop : self.opcode = STATICCALL
    · rw [if_pos hop, if_pos hop]
      decide
    · rw [if_neg hop, if_neg hop]
  · intro n
    refine ⟨hexChars_ne_nil n, hexChars_all_hex n, ?_⟩
    intro hn c l hcl hc
    obtain ⟨c2, l2, heq, hc2, _⟩ := hexChars_head_ne_zero n hn
    rw [heq] at hcl
    cases hcl
    exact hc2 hc

/-- Witness for C6 at a STATICCALL step and at a non-STATICCALL step of
concrete tracer states. -/
theorem record_log_gas_cost_witness :
    (∃ item, (TracerEip3155.record_log (fun _ => some "STATICCALL")
        { TracerEip3155.new (DebugTraceConfig.mk true true true) with
            opcode := STATICCALL }
        (JournaledState.mk 1 [] [])).logs =
      ({ TracerEip3155.new (DebugTraceConfig.mk true true true) with
            opcode := STATICCALL } : TracerEip3155).logs ++ [item] ∧
      item.gas_cost = (if ({ TracerEip3155.new (DebugTraceConfig.mk true true true) with
            opcode := STATICCALL } : TracerEip3155).opcode = STATICCALL then "0x0"
        else String.mk ('0' :: 'x' :: hexChars
          ({ TracerEip3155.new (DebugTraceConfig.mk true true true) with
            opcode := STATICCALL } : TracerEip3155).gas_inspector.last_gas_cost)) ∧
      (∀ n : Nat, hexChars n ≠ [] ∧
        (∀ c ∈ hexChars n, isLowerHexDigit c = true) ∧
        (n ≠ 0 → ∀ c l, hexChars n = c :: l → c ≠ '0'))) :=
  record_log_gas_cost (fun _ => some "STATICCALL")
    { TracerEip3155.new (DebugTraceConfig.mk true true true) with opcode := STATICCALL }
    (JournaledState.mk 1 [] [])

/-- C7. In every step record appended by `record_log`, the `error` field is
populated iff the opcode is absent from the mnemonic table; in that case
`op_name` and `error` are the same string
`"opcode 0x$" ++ <minimal lowercase hex of the opcode byte> ++ " not defined"`
(so it matches `^opcode 0x\$[0-9a-f]+ not defined$`); for a defined opcode
`error` is absent and `op_name` is the table mnemonic. -/
theorem record_log_op_name_error (jumpmap : Nat → Option String)
    (self : TracerEip3155) (js : JournaledState) :
    ∃ item, (TracerEip3155.record_log jumpmap self js).logs = self.logs ++ [item] ∧
      (∀ name, jumpmap self.opcode = some name →
        item.error = none ∧ item.op_name = name) ∧
      (jumpmap self.opcode = none →
        item.error = some item.op_name ∧
        item.op_name =
          "opcode 0x$" ++ String.mk (hexChars self.opcode) ++ " not defined" ∧
        hexChars self.opcode ≠ [] ∧
        (∀ c ∈ hexChars self.opcode, isLowerHexDigit c = true)) := by
  obtain ⟨item, hlogs, _, _, _, _, _, _, _, hname, herr, _⟩ :=
    record_log_last_item jumpmap self js
  refine ⟨item, hlogs, ?_, ?_⟩
  · intro name hjm
    rw [herr, hname, hjm]
    exact ⟨rfl, rfl⟩
  · intro hjm
    rw [herr, hname, hjm]
    exact ⟨rfl, rfl, hexChars_ne_nil _, hexChars_all_hex _⟩

/-- Witness for C7: a defined opcode yields no error; the undefined opcode
byte `0x0c` yields `op_name = error = "opcode 0x$c not defined"`. -/
theorem record_log_op_name_error_witness :
    ((TracerEip3155.record_log (fun op => if op = 0x0c then none else some "KNOWN")
        { TracerEip3155.new (DebugTraceConfig.mk true true true) with opcode := 0x0c }
        (JournaledState.mk 1 [] [])).logs.getLast?.map
          (fun item => (item.op_name, item.error))) =
      some ("opcode 0x$c not defined", some "opcode 0x$c not defined") := by
  obtain ⟨item, hlogs, _, hund⟩ :=
    record_log_op_name_error (fun op => if op = 0x0c then none else some "KNOWN")
      { TracerEip3155.new (DebugTraceConfig.mk true true true) with opcode := 0x0c }
      (JournaledState.mk 1 [] [])
  obtain ⟨herr, hname, _, _⟩ := hund (by decide)
  rw [hlogs, List.getLast?_concat]
  simp only [Option.map]
  rw [herr, hname]
  decide

theorem isHexWord66_mk (rest : List Char) (hlen : rest.length = 64)
    (hall : ∀ c ∈ rest, isLowerHexDigit c = true) :
    isHexWord66 (String.mk ('0' :: 'x' :: rest)) = true := by
  unfold isHexWord66
  simp only [Bool.and_eq_true, decide_eq_true_eq, List.all_eq_true]
  refine ⟨⟨?_, rfl⟩, ?_⟩
  · show ('0' :: 'x' :: rest).length = 66
    simp [hlen]
  · intro c hc
    refine hall c ?_
    simpa using hc

/-- C9. For every 256-bit word, `to_hex_word` returns a 66-character string
of the shape `^0x[0-9a-f]\x7b64\x7d$` (zero-padded lowercase), with zero
special-cased to `0x` followed by 64 zeros; consequently, in every record
appended by `record_log` with stack capture enabled, the emitted stack is
the word-wise image of the snapshot under `to_hex_word` and every entry has
exactly this shape. -/
theorem to_hex_word_shape :
    (∀ word, word < 2 ^ 256 →
      isHexWord66 (to_hex_word word) = true ∧ (to_hex_word word).length = 66) ∧
    to_hex_word 0 =
      "0x0000000000000000000000000000000000000000000000000000000000000000" ∧
    (∀ jumpmap (self : TracerEip3155) js,
      self.config.disable_stack = false →
      (∀ w ∈ self.stack, w < 2 ^ 256) →
      ∃ item, (TracerEip3155.record_log jumpmap self js).logs = self.logs ++ [item] ∧
        item.stack = some (self.stack.map to_hex_word) ∧
        ∀ s ∈ self.stack.map to_hex_word, isHexWord66 s = true) := by
  have hpow : (2 : ℕ) ^ 256 = 16 ^ 64 := by norm_num
  have main : ∀ word, word < 2 ^ 256 →
      isHexWord66 (to_hex_word word) = true ∧ (to_hex_word word).length = 66 := by
    intro word hw
    by_cases h0 : word = 0
    · subst h0
      constructor <;> decide
    · have hd : (hexChars word).length ≤ 64 :=
        hexChars_length_le word 64 (by rw [← hpow]; exact hw) (by norm_num)
      unfold to_hex_word
      rw [if_neg h0]
      constructor
      · refine isHexWord66_mk _ ?_ ?_
        · simp only [List.length_append, List.length_replicate]
          omega
        · intro c hc
          rcases List.mem_append.mp hc with hc | hc
          · rw [List.eq_of_mem_replicate hc]
            decide
          · exact hexChars_all_hex word c hc
      · show ('0' :: 'x' ::
          (List.replicate (64 - (hexChars word).length) '0' ++ hexChars word)).length = 66
        simp only [List.length_cons, List.length_append, List.length_replicate]
        omega
  refine ⟨main, by decide, ?_⟩
  intro jumpmap self js hds hws
  obtain ⟨item, hlogs, _, _, _, _, hstack, _⟩ := record_log_last_item jumpmap self js
  refine ⟨item, hlogs, ?_, ?_⟩
  · rw [hstack, hds]
    simp
  · intro s hs
    obtain ⟨w, hw, rfl⟩ := List.mem_map.mp hs
    exact (main w (hws w hw)).1

/-- Witness for C9 at the concrete words 3 and 0. -/
theorem to_hex_word_shape_witness :
    (isHexWord66 (to_hex_word 3) = true ∧ (to_hex_word 3).length = 66) ∧
    (isHexWord66 (to_hex_word 0) = true ∧ (to_hex_word 0).length = 66) :=
  ⟨to_hex_word_shape.1 3 (by norm_num), to_hex_word_shape.1 0 (by norm_num)⟩

theorem storageCapture_unchanged (self : TracerEip3155) (js : JournaledState)
    (h : self.config.disable_storage = true ∨
      (self.opcode ≠ SLOAD ∧ self.opcode ≠ SSTORE) ∨
      (∀ a k hv, js.lastJournalEntry ≠ some (JournalEntry.storageChange a k hv))) :
    (TracerEip3155.storageCapture self js).1.storage = self.storage := by
  unfold TracerEip3155.storageCapture
  by_cases hd : self.config.disable_storage
  · simp [hd]
  · simp only [hd, Bool.false_eq_true, if_false]
    by_cases hop : self.opcode = SLOAD ∨ self.opcode = SSTORE
    · simp only [hop, if_true]
      rcases h with h | h | h
      · exact absurd h hd
      · rcases hop with hop | hop
        · exact absurd hop h.1
        · exact absurd hop h.2
      · cases hj : js.lastJournalEntry with
        | none => rfl
        | some entry =>
          cases entry with
          | storageChange a k hv => exact absurd hj (h a k hv)
          | other tag => rfl
    · simp only [hop, if_false]

theorem storageCapture_inserts (self : TracerEip3155) (js : JournaledState)
    (hd : self.config.disable_storage = false)
    (hop : self.opcode = SLOAD ∨ self.opcode = SSTORE)
    (a k : Nat) (hv : Option Nat)
    (hj : js.lastJournalEntry = some (JournalEntry.storageChange a k hv)) :
    (TracerEip3155.storageCapture self js).1.storage =
      insertAssoc self.storage self.contract_address
        (insertAssoc ((lookupAssoc self.storage self.contract_address).getD [])
          (to_hex_word k) (to_hex_word (js.presentValue a k))) := by
  unfold TracerEip3155.storageCapture
  simp only [hd, Bool.false_eq_true, if_false, hop, if_true, hj]

/-- C5. The per-contract storage mirror gains an entry only when the
current opcode is `SLOAD` or `SSTORE` and the journal's last entry is a
storage-change entry (and storage capture is enabled); in that case the
mirror maps, under the current `contract_address`, `hex(key)` to
`hex(present_value)` read from the journaled state for the entry's
`(address, key)` pair, while every other address and every other key of the
contract's mirror are unchanged; for all other opcodes, journal shapes or a
disabled storage capture the mirror is unchanged. -/
theorem record_log_storage_mirror (jumpmap : Nat → Option String)
    (self : TracerEip3155) (js : JournaledState) :
    ((self.config.disable_storage = true ∨
        (self.opcode ≠ SLOAD ∧ self.opcode ≠ SSTORE) ∨
        (∀ a k hv, js.lastJournalEntry ≠ some (JournalEntry.storageChange a k hv))) →
      (TracerEip3155.record_log jumpmap self js).storage = self.storage) ∧
    (self.config.disable_storage = false →
      (self.opcode = SLOAD ∨ self.opcode = SSTORE) →
      ∀ a k hv, js.lastJournalEntry = some (JournalEntry.storageChange a k hv) →
        lookupAssoc ((lookupAssoc (TracerEip3155.record_log jumpmap self js).storage
            self.contract_address).getD []) (to_hex_word k) =
          some (to_hex_word (js.presentValue a k)) ∧
        (∀ addr, addr ≠ self.contract_address →
          lookupAssoc (TracerEip3155.record_log jumpmap self js).storage addr =
            lookupAssoc self.storage addr) ∧
        (∀ key2, key2 ≠ to_hex_word k →
          lookupAssoc ((lookupAssoc (TracerEip3155.record_log jumpmap self js).storage
              self.contract_address).getD []) key2 =
            lookupAssoc ((lookupAssoc self.storage self.contract_address).getD [])
              key2)) := by
  constructor
  · intro h
    rw [record_log_storage_eq, storageCapture_unchanged self js h]
  · intro hd hop a k hv hj
    rw [record_log_storage_eq, storageCapture_inserts self js hd hop a k hv hj]
    refine ⟨?_, ?_, ?_⟩
    · rw [lookupAssoc_insertAssoc_self]
      simp only [Option.getD_some]
      rw [lookupAssoc_insertAssoc_self]
    · intro addr haddr
      exact lookupAssoc_insertAssoc_ne _ _ _ _ haddr
    · intro key2 hkey2
      rw [lookupAssoc_insertAssoc_self]
      simp only [Option.getD_some]
      exact lookupAssoc_insertAssoc_ne _ _ _ _ hkey2

/-- Witness for C5: an `SLOAD` step over a concrete journaled state inserts
the hex key/value pair under the executing contract, leaves another address
untouched, and a non-SLOAD/SSTORE step leaves the mirror unchanged. -/
theorem record_log_storage_mirror_witness :
    lookupAssoc ((lookupAssoc (TracerEip3155.record_log (fun _ => none)
        { TracerEip3155.new (DebugTraceConfig.mk false true true) with
            opcode := SLOAD, contract_address := 7 }
        (JournaledState.mk 1 [[JournalEntry.storageChange 7 1 none]]
          [(7, Account.mk [(1, StorageSlot.mk 42)])])).storage 7).getD [])
      (to_hex_word 1) = some (to_hex_word 42) ∧
    lookupAssoc (TracerEip3155.record_log (fun _ => none)
        { TracerEip3155.new (DebugTraceConfig.mk false true true) with
            opcode := SLOAD, contract_address := 7 }
        (JournaledState.mk 1 [[JournalEntry.storageChange 7 1 none]]
          [(7, Account.mk [(1, StorageSlot.mk 42)])])).storage 9 =
      lookupAssoc ({ TracerEip3155.new (DebugTraceConfig.mk false true true) with
          opcode := SLOAD, contract_address := 7 } : TracerEip3155).storage 9 ∧
    (TracerEip3155.record_log (fun _ => none)
        { TracerEip3155.new (DebugTraceConfig.mk false true true) with
            opcode := 0x01 }
        (JournaledState.mk 1 [[JournalEntry.storageChange 7 1 none]]
          [(7, Account.mk [(1, StorageSlot.mk 42)])])).storage =
      ({ TracerEip3155.new (DebugTraceConfig.mk false true true) with
          opcode := 0x01 } : TracerEip3155).storage := by
  have h := (record_log_storage_mirror (fun _ => none)
    { TracerEip3155.new (DebugTraceConfig.mk false true true) with
        opcode := SLOAD, contract_address := 7 }
    (JournaledState.mk 1 [[JournalEntry.storageChange 7 1 none]]
      [(7, Account.mk [(1, StorageSlot.mk 42)])])).2 rfl (Or.inl rfl) 7 1 none rfl
  have h2 := (record_log_storage_mirror (fun _ => none)
    { TracerEip3155.new (DebugTraceConfig.mk false true true) with
        opcode := 0x01 }
    (JournaledState.mk 1 [[JournalEntry.storageChange 7 1 none]]
      [(7, Account.mk [(1, StorageSlot.mk 42)])])).1 (Or.inr (Or.inl (by decide)))
  exact ⟨h.1, h.2.1 9 (by decide), h2⟩
